import Mathlib

/-!
Shallow embedding of the SdkClient response-normalization wrapper
(src/unnamed/part_002) of the swagger-ts-sdk repository.

JavaScript runtime values relevant to the wrapper are modelled by the
mutual inductive types JSVal/JSFields below: null, undefined, booleans,
numbers, strings, AbortSignal handles, and plain objects as field lists.
Property access, optional chaining, truthiness and the logical-or
operator are translated directly from their JavaScript semantics, on
which the source relies.
-/

deriving instance DecidableEq for Except

namespace SwaggerSdk

mutual

/-- A JavaScript runtime value as used by the wrapper: null, undefined,
booleans, numbers, strings, per-call AbortSignal handles (identified by
the numeric id of their AbortController), and plain objects given as a
field list. -/
inductive JSVal where
  | jnull : JSVal
  | jundefined : JSVal
  | jbool : Bool → JSVal
  | jnum : Int → JSVal
  | jstr : String → JSVal
  | jsignal : Nat → JSVal
  | jobj : JSFields → JSVal

/-- The (ordered) own fields of a JavaScript object. -/
inductive JSFields where
  | nil : JSFields
  | cons : String → JSVal → JSFields → JSFields

end

deriving instance DecidableEq for JSVal, JSFields

/-- Field lookup in an object's field list (first match). -/
def JSFields.lookup : JSFields → String → Option JSVal
  | .nil, _ => none
  | .cons k v rest, key => if k = key then some v else JSFields.lookup rest key

/-- Concatenation of field lists. -/
def JSFields.append : JSFields → JSFields → JSFields
  | .nil, gs => gs
  | .cons k v rest, gs => .cons k v (JSFields.append rest gs)

/-- Replace the value of every field named key (object keys are unique
in JavaScript, so at most one field is affected). -/
def JSFields.setAt : JSFields → String → JSVal → JSFields
  | .nil, _, _ => .nil
  | .cons k v rest, key, w =>
    if k = key then .cons k w (JSFields.setAt rest key w)
    else .cons k v (JSFields.setAt rest key w)

/-- JavaScript truthiness of a value (null, undefined, false, 0 and the
empty string are falsy; objects and signals are always truthy). -/
def JSVal.truthy : JSVal → Bool
  | .jnull => false
  | .jundefined => false
  | .jbool b => b
  | .jnum n => n != 0
  | .jstr s => s != ""
  | .jsignal _ => true
  | .jobj _ => true

/-- Optional-chaining property access v?.k for the field names the
wrapper reads (name, message, error, status, data): null and undefined
yield undefined; primitives have none of these own properties, so they
yield undefined; on objects the field is looked up, a missing field
yielding undefined. -/
def JSVal.optGet : JSVal → String → JSVal
  | .jobj fs, k =>
    match fs.lookup k with
    | some x => x
    | none => .jundefined
  | _, _ => .jundefined

/-- Plain property access v.k: throws a TypeError (the error branch)
when v is null or undefined, and otherwise behaves like optional
chaining. -/
def JSVal.getProp : JSVal → String → Except Unit JSVal
  | .jnull, _ => .error ()
  | .jundefined, _ => .error ()
  | v, k => .ok (v.optGet k)

/-- The JavaScript logical-or a || b: a when a is truthy, otherwise b. -/
def jsOr (a b : JSVal) : JSVal := if a.truthy then a else b

/-- Whether the character list sub occurs contiguously in s, checking a
match at the current position. -/
def charsPrefix : List Char → List Char → Bool
  | [], _ => true
  | _ :: _, [] => false
  | a :: as, b :: bs => a == b && charsPrefix as bs

/-- Whether the character list sub occurs contiguously anywhere in s. -/
def charsIncludes (sub : List Char) : List Char → Bool
  | [] => charsPrefix sub []
  | c :: rest => charsPrefix sub (c :: rest) || charsIncludes sub rest

/-- String.prototype.includes: whether sub occurs as a substring of s. -/
def strIncludes (s sub : String) : Bool := charsIncludes sub.toList s.toList

/-- The indexed-character fields contributed by spreading a string into
an object literal, starting at index i. -/
def stringIndexFields : Nat → List Char → JSFields
  | _, [] => .nil
  | i, c :: cs => .cons (toString i) (.jstr (String.mk [c])) (stringIndexFields (i + 1) cs)

/-- The own enumerable fields contributed by spreading a value into an
object literal: objects contribute their fields, strings contribute
their indexed characters, every other primitive contributes nothing. -/
def JSVal.spreadFields : JSVal → JSFields
  | .jobj fs => fs
  | .jstr s => stringIndexFields 0 s.toList
  | _ => .nil

/-- Object-literal field update: the field list obtained by spreading fs
and then writing field key with value v, keeping the position of an
already-present key (its value replaced) and appending a fresh key at
the end, as a JavaScript object literal does. -/
def updateField (fs : JSFields) (key : String) (v : JSVal) : JSFields :=
  if (fs.lookup key).isSome then fs.setAt key v
  else fs.append (.cons key v .nil)

/-! ## The intercepted call (part_002, lines 83-146)

An intercepted method call creates a fresh AbortController (modelled by
controller id 0, since each call owns an independent controller), builds
the parameter object handed to the underlying method, awaits the
underlying method, and normalizes its outcome in a try/catch.  The
underlying method's behavior is a function from the parameter object it
receives to an outcome (resolve with a value, or reject with a value).
The setTimeout/clearTimeout plumbing (lines 89-94, 109-112, 121-124) has
no effect observable in this model beyond the timer always being cleared
on settlement; a timeout firing manifests as the underlying method
rejecting with an AbortError, which is covered by the rejection case. -/

/-- Behavior of the underlying (wrapped) async method on one call: it
either resolves with a value or rejects with a value. -/
inductive MethodOutcome where
  | resolve : JSVal → MethodOutcome
  | reject : JSVal → MethodOutcome
deriving DecidableEq

/-- The abort function placed on the envelope: abortController.abort
bound to the per-call controller (identified by its id). -/
structure AbortFn where
  controller : Nat
deriving DecidableEq

/-- The response envelope returned by an intercepted call.  The abort
field always holds the call's bound abort function (a function value by
construction). -/
structure Envelope where
  data : JSVal
  error : JSVal
  status : JSVal
  abort : AbortFn
deriving DecidableEq

/-- The per-client configuration consulted by the call wrapper: whether
an onRequestError callback was supplied, and the optional timeout. -/
structure CallConfig where
  onRequestErrorSet : Bool
  timeout : Option Nat
deriving DecidableEq

/-- The observable outcome of one intercepted call: the settlement of
the promise returned to the caller (ok an envelope, or error when an
exception escapes the wrapper so the promise rejects), the list of
values the onRequestError callback was invoked with (in order), and
whether a configured timer was cleared. -/
structure CallOutcome where
  result : Except Unit Envelope
  onRequestErrorCalls : List JSVal
  timerCleared : Bool
deriving DecidableEq

/-- Lines 100-105: requestParams is args[0] or, when that is falsy, a
fresh empty object; the parameter object passed on is the object
literal spreading requestParams and then writing the signal field with
the call's own AbortSignal. -/
def buildParams (args : List JSVal) (sig : JSVal) : JSVal :=
  let a0 := args.getD 0 .jundefined
  let requestParams := if a0.truthy then a0 else .jobj .nil
  .jobj (updateField requestParams.spreadFields "signal" sig)

/-- Line 127: the test for an abort error,
err?.name === "AbortError" || err?.message?.includes("aborted").
The strict equality against the string literal succeeds exactly when the
name field is that string.  When the first disjunct fails and the
message field is neither nullish nor a string, evaluating its includes
member yields undefined and calling it throws a TypeError (the error
branch), since only strings among the modelled values carry includes. -/
def isAbortErr (err : JSVal) : Except Unit Bool :=
  if err.optGet "name" = .jstr "AbortError" then .ok true
  else
    match err.optGet "message" with
    | .jnull => .ok false
    | .jundefined => .ok false
    | .jstr s => .ok (strIncludes s "aborted")
    | _ => .error ()

/-- The TypeError raised when reading the data property of a nullish
response on line 115 (its message text is engine-defined; no engine's
text contains the substring "aborted"). -/
def nullReadError : JSVal :=
  .jobj (.cons "name" (.jstr "TypeError")
    (.cons "message" (.jstr "Cannot read properties of null") .nil))

/-- Lines 114-119, the tail of the try block: build the success envelope
from the resolved response.  Reading response.data throws when the
response is nullish; that exception is raised inside the try block and
so lands in the catch block. -/
def tryBody (response : JSVal) (abortFn : AbortFn) : Except JSVal Envelope :=
  match response with
  | .jnull => .error nullReadError
  | .jundefined => .error nullReadError
  | r => .ok ⟨r.optGet "data", .jnull, r.optGet "status", abortFn⟩

/-- Lines 120-145, the catch block: classify the caught value.  An
abort-signaling error yields the abort envelope without touching the
callback; any other value is reported to onRequestError (when
configured) and normalized with the || fallback chains; when the abort
test itself throws, the exception escapes the wrapper and the call
rejects. -/
def catchBlock (cfg : CallConfig) (abortFn : AbortFn) (err : JSVal)
    (timerCleared : Bool) : CallOutcome :=
  match isAbortErr err with
  | .error () => ⟨.error (), [], timerCleared⟩
  | .ok true =>
    ⟨.ok ⟨.jnull, .jstr "Request aborted", .jnum 0, abortFn⟩, [], timerCleared⟩
  | .ok false =>
    ⟨.ok ⟨.jnull,
        jsOr ((err.optGet "error").optGet "message")
          (jsOr (err.optGet "message") (.jstr "Request failed")),
        jsOr (err.optGet "status") .jnull,
        abortFn⟩,
      if cfg.onRequestErrorSet then [err] else [],
      timerCleared⟩

/-- Lines 83-146: the full intercepted call.  A configured timer is
cleared in both the success path (lines 109-112) and the catch path
(lines 121-124), in each case before anything observable happens. -/
def wrappedCall (cfg : CallConfig) (method : JSVal → MethodOutcome)
    (args : List JSVal) : CallOutcome :=
  let abortFn : AbortFn := ⟨0⟩
  let params := buildParams args (.jsignal 0)
  let timerCleared := cfg.timeout.isSome
  match method params with
  | .resolve response =>
    match tryBody response abortFn with
    | .ok env => ⟨.ok env, [], timerCleared⟩
    | .error err => catchBlock cfg abortFn err timerCleared
  | .reject err => catchBlock cfg abortFn err timerCleared

/-- The value an intercepted method call hands back synchronously: the
pending promise produced by the async arrow function of line 83.  The
source returns this promise bare, attaching nothing to it, so no abort
function sits on the pending value itself. -/
structure PendingCall where
  settlesTo : CallOutcome
  abortOnPromise : Option AbortFn
deriving DecidableEq

/-- Invoking an intercepted method: the pending promise settles to the
wrapped call's outcome and carries no abort property of its own. -/
def interceptedCall (cfg : CallConfig) (method : JSVal → MethodOutcome)
    (args : List JSVal) : PendingCall :=
  ⟨wrappedCall cfg method args, none⟩

/-! ## The proxy traversal (part_002, lines 72-155)

The constructor returns a Proxy around the api instance.  Its get
handler wraps object-valued members in a nested Proxy; the nested
Proxy's get handler replaces function-valued members with the
normalizing wrapper and returns every other member as-is.  Member
values of the api instance are modelled by ClientVal: primitives,
function members (identified by an id), and namespace objects. -/

mutual

/-- A member value of the wrapped api instance: a primitive, a function
member (identified by a numeric id), or a nested namespace object. -/
inductive ClientVal where
  | vNull : ClientVal
  | vUndefined : ClientVal
  | vBool : Bool → ClientVal
  | vNum : Int → ClientVal
  | vStr : String → ClientVal
  | fnVal : Nat → ClientVal
  | nsObj : ClientFields → ClientVal

/-- The named members of the api instance or of a namespace object. -/
inductive ClientFields where
  | nil : ClientFields
  | cons : String → ClientVal → ClientFields → ClientFields

end

deriving instance DecidableEq for ClientVal, ClientFields

/-- Member lookup on the api instance or a namespace object. -/
def ClientFields.lookup : ClientFields → String → Option ClientVal
  | .nil, _ => none
  | .cons k v rest, key => if k = key then some v else ClientFields.lookup rest key

/-- A value as seen by application code when reading properties through
the wrapper: the outer Proxy (line 72), the nested Proxy (line 78), the
normalizing wrapper around a function member (line 83), a raw value
returned without further wrapping, or a thrown TypeError (property
access on null or undefined). -/
inductive WrapperVal where
  | outerProxy : ClientFields → WrapperVal
  | nestedProxy : ClientFields → WrapperVal
  | wrappedFn : Nat → WrapperVal
  | rawVal : ClientVal → WrapperVal
  | throwTypeError : WrapperVal
deriving DecidableEq

/-- One property read x[k] through the wrapper.  The outer Proxy's get
handler (lines 73-153) wraps members with typeof "object" that are not
null in a nested Proxy and returns every other member unchanged
(missing members read as undefined, which is not an object).  The
nested Proxy's get handler (lines 79-149) replaces function members by
the normalizing wrapper and returns every other member unchanged.  A
raw namespace object is no longer proxied, so reads on it are plain
property accesses; reads on raw null or undefined throw; reads on other
raw values (and on the wrapper function itself) yield undefined for the
member names in use. -/
def wrapperGet : WrapperVal → String → WrapperVal
  | .outerProxy fs, k =>
    match fs.lookup k with
    | some (.nsObj gs) => .nestedProxy gs
    | some v => .rawVal v
    | none => .rawVal .vUndefined
  | .nestedProxy fs, k =>
    match fs.lookup k with
    | some (.fnVal id) => .wrappedFn id
    | some v => .rawVal v
    | none => .rawVal .vUndefined
  | .rawVal (.nsObj fs), k =>
    match fs.lookup k with
    | some v => .rawVal v
    | none => .rawVal .vUndefined
  | .rawVal .vNull, _ => .throwTypeError
  | .rawVal .vUndefined, _ => .throwTypeError
  | .rawVal _, _ => .rawVal .vUndefined
  | .wrappedFn _, _ => .rawVal .vUndefined
  | .throwTypeError, _ => .throwTypeError

/-- Reading a chain of properties through the wrapper, left to right. -/
def accessPath (w : WrapperVal) : List String → WrapperVal
  | [] => w
  | k :: ks => accessPath (wrapperGet w k) ks

/-- Constructing the SdkClient returns the outer Proxy around the api
instance (line 72). -/
def sdkClientOf (apiFields : ClientFields) : WrapperVal := .outerProxy apiFields

/-! ## Token handling (part_002, lines 50-69)

The token option is undefined, a static string, or a provider function.
The provider's return value at a given invocation is supplied
externally; a provider is modelled by the sequence of values it returns
on successive invocations. -/

/-- The token option: absent, a static string, or a provider function. -/
inductive TokenOpt where
  | noToken : TokenOpt
  | staticTok : String → TokenOpt
  | providerTok : TokenOpt
deriving DecidableEq

/-- Line 51: getToken, the token normalized to a zero-argument function.
A provider is used as-is (its current return value is the argument
providerVal); a truthy static string is returned constantly; an absent
or falsy token yields undefined (none). -/
def getTokenValue (t : TokenOpt) (providerVal : Option String) : Option String :=
  match t with
  | .providerTok => providerVal
  | .staticTok s => if s ≠ "" then some s else none
  | .noToken => none

/-- Lines 60-63: the securityWorker closure handed to the generated
client.  Each invocation re-resolves the token via getToken and returns
a headers object carrying Authorization Bearer when the current token
is truthy, and an empty object otherwise. -/
def securityWorker (t : TokenOpt) (providerVal : Option String) : JSVal :=
  match getTokenValue t providerVal with
  | some tok =>
    if tok ≠ "" then
      .jobj (.cons "headers"
        (.jobj (.cons "Authorization" (.jstr ("Bearer " ++ tok)) .nil)) .nil)
    else .jobj .nil
  | none => .jobj .nil

/-- Modelled from the spec: the generated API class (an external
collaborator, not part of this repository) invokes the supplied
securityWorker hook immediately before each outgoing request.  The
security headers of the i-th request under a provider token are
therefore the securityWorker's result on the provider's i-th value. -/
def requestSecurityHeaders (t : TokenOpt) (provider : Nat → Option String)
    (i : Nat) : JSVal :=
  securityWorker t (provider i)

/-! ## Concrete inputs and proof-side predicates -/

/-- A rejection carrying a present but empty nested error message, a
present outer message, and a present status 0. -/
def errC3 : JSVal :=
  .jobj (.cons "error" (.jobj (.cons "message" (.jstr "") .nil))
    (.cons "message" (.jstr "outer") (.cons "status" (.jnum 0) .nil)))

/-- A structured API error rejection with a nested message and a
status. -/
def errC3w : JSVal :=
  .jobj (.cons "error" (.jobj (.cons "message" (.jstr "User not found") .nil))
    (.cons "status" (.jnum 404) .nil))

/-- Values from which no proxy (and hence no interception) is reachable:
raw values and the thrown TypeError. -/
def noProxy : WrapperVal → Bool
  | .rawVal _ => true
  | .throwTypeError => true
  | _ => false

/-! ## Helper lemmas -/

theorem JSFields.lookup_setAt : ∀ (fs : JSFields) (key : String) (w : JSVal),
    (fs.lookup key).isSome → (fs.setAt key w).lookup key = some w
  | .nil, key, w, h => by simp [JSFields.lookup] at h
  | .cons k v rest, key, w, h => by
    by_cases hk : k = key
    · subst hk; simp [JSFields.setAt, JSFields.lookup]
    · simp only [JSFields.lookup, hk, if_false] at h
      simp only [JSFields.setAt, hk, if_false, JSFields.lookup]
      exact JSFields.lookup_setAt rest key w h

theorem JSFields.lookup_append_single : ∀ (fs : JSFields) (key : String) (w : JSVal),
    fs.lookup key = none → (fs.append (.cons key w .nil)).lookup key = some w
  | .nil, key, w, _ => by simp [JSFields.append, JSFields.lookup]
  | .cons k v rest, key, w, h => by
    by_cases hk : k = key
    · simp [JSFields.lookup, hk] at h
    · simp only [JSFields.lookup, hk, if_false] at h
      simp only [JSFields.append, JSFields.lookup, hk, if_false]
      exact JSFields.lookup_append_single rest key w h

/-- Writing a field with an object literal makes that field readable back. -/
theorem lookup_updateField_self (fs : JSFields) (key : String) (w : JSVal) :
    (updateField fs key w).lookup key = some w := by
  unfold updateField
  split
  · exact JSFields.lookup_setAt fs key w (by assumption)
  · exact JSFields.lookup_append_single fs key w
      (Option.not_isSome_iff_eq_none.mp (by assumption))

/-- The fallback chain a || b is truthy whenever its right side is. -/
theorem jsOr_truthy_of_right (a b : JSVal) (hb : b.truthy = true) :
    (jsOr a b).truthy = true := by
  unfold jsOr
  split
  · assumption
  · exact hb

/-! ## Claims -/

/-- C1: for every intercepted call whose underlying method resolves with
an object carrying data and status fields, the wrapper returns the
envelope whose data and status are exactly those fields, whose error is
null, and whose abort is the call's bound abort function (a function
value by construction of the AbortFn type). -/
theorem claim_C1_success_envelope (cfg : CallConfig)
    (method : JSVal → MethodOutcome) (args : List JSVal) (fs : JSFields)
    (d s : JSVal)
    (hres : method (buildParams args (.jsignal 0)) = .resolve (.jobj fs))
    (hd : fs.lookup "data" = some d) (hs : fs.lookup "status" = some s) :
    (wrappedCall cfg method args).result = .ok ⟨d, .jnull, s, ⟨0⟩⟩ := by
  simp [wrappedCall, hres, tryBody, JSVal.optGet, hd, hs]

/-- C1 witness: the spec scenario, a method resolving with id 123 and
name John Doe at status 200 under a 5000ms timeout. -/
theorem claim_C1_success_envelope_w :
    (wrappedCall ⟨false, some 5000⟩
      (fun _ => .resolve (.jobj (.cons "data"
        (.jobj (.cons "id" (.jstr "123") (.cons "name" (.jstr "John Doe") .nil)))
        (.cons "status" (.jnum 200) .nil)))) []).result
    = .ok ⟨.jobj (.cons "id" (.jstr "123") (.cons "name" (.jstr "John Doe") .nil)),
        .jnull, .jnum 200, ⟨0⟩⟩ :=
  claim_C1_success_envelope ⟨false, some 5000⟩ _ [] _ _ _ rfl (by decide) (by decide)

/-- C2: for every intercepted call whose underlying method rejects with
an error whose name field equals AbortError or whose message field is a
string containing the substring aborted, the wrapper returns the abort
envelope (null data, error Request aborted, status 0, the bound abort
function) and the onRequestError callback is never invoked. -/
theorem claim_C2_abort_envelope (cfg : CallConfig)
    (method : JSVal → MethodOutcome) (args : List JSVal) (err : JSVal)
    (hrej : method (buildParams args (.jsignal 0)) = .reject err)
    (habort : err.optGet "name" = .jstr "AbortError"
      ∨ ∃ s, err.optGet "message" = .jstr s ∧ strIncludes s "aborted" = true) :
    wrappedCall cfg method args
      = ⟨.ok ⟨.jnull, .jstr "Request aborted", .jnum 0, ⟨0⟩⟩, [],
          cfg.timeout.isSome⟩ := by
  have hab : isAbortErr err = .ok true := by
    rcases habort with h | ⟨s, hm, hinc⟩
    · simp [isAbortErr, h]
    · by_cases hn : err.optGet "name" = .jstr "AbortError"
      · simp [isAbortErr, hn]
      · simp [isAbortErr, hn, hm, hinc]
  simp [wrappedCall, hrej, catchBlock, hab]

/-- C2 witness: a method rejecting with a DOMException-shaped error
named AbortError, under a configured callback: the abort envelope comes
back and the callback list stays empty. -/
theorem claim_C2_abort_envelope_w :
    wrappedCall ⟨true, some 50⟩
      (fun _ => .reject (.jobj (.cons "name" (.jstr "AbortError")
        (.cons "message" (.jstr "Aborted") .nil)))) []
    = ⟨.ok ⟨.jnull, .jstr "Request aborted", .jnum 0, ⟨0⟩⟩, [], true⟩ :=
  claim_C2_abort_envelope ⟨true, some 50⟩ _ [] _ rfl (Or.inl (by decide))

/-- C9: the securityWorker hook handed to the generated client
re-resolves the token from the provider at each invocation, so two
requests under the same client see the provider's value at their own
request, and a request at which the provider returns undefined gets an
empty security-header object (no Authorization header from the hook). -/
theorem claim_C9_token_freshness (p : Nat → Option String) (i j k : Nat)
    (v w : String) (hi : p i = some v) (hv : v ≠ "")
    (hj : p j = some w) (hw : w ≠ "") (hk : p k = none) :
    ((requestSecurityHeaders .providerTok p i).optGet "headers").optGet "Authorization"
        = .jstr ("Bearer " ++ v)
    ∧ ((requestSecurityHeaders .providerTok p j).optGet "headers").optGet "Authorization"
        = .jstr ("Bearer " ++ w)
    ∧ requestSecurityHeaders .providerTok p k = .jobj .nil := by
  refine ⟨?_, ?_, ?_⟩
  · simp [requestSecurityHeaders, securityWorker, getTokenValue, hi, hv,
      JSVal.optGet, JSFields.lookup]
  · simp [requestSecurityHeaders, securityWorker, getTokenValue, hj, hw,
      JSVal.optGet, JSFields.lookup]
  · simp [requestSecurityHeaders, securityWorker, getTokenValue, hk]

/-- C9 witness: a provider returning t1 on the first request, t2 on the
second and undefined on the third rotates the Authorization header
between the first two requests and produces none on the third, without
the client being reconstructed. -/
theorem claim_C9_token_freshness_w :
    ((requestSecurityHeaders .providerTok
        (fun n => if n = 0 then some "t1" else if n = 1 then some "t2" else none) 0).optGet
        "headers").optGet "Authorization" = .jstr ("Bearer " ++ "t1")
    ∧ ((requestSecurityHeaders .providerTok
        (fun n => if n = 0 then some "t1" else if n = 1 then some "t2" else none) 1).optGet
        "headers").optGet "Authorization" = .jstr ("Bearer " ++ "t2")
    ∧ requestSecurityHeaders .providerTok
        (fun n => if n = 0 then some "t1" else if n = 1 then some "t2" else none) 2
      = .jobj .nil :=
  claim_C9_token_freshness _ 0 1 2 "t1" "t2" rfl (by decide) rfl (by decide) rfl

/-- C10: an intercepted call forwards exactly one argument to the
underlying method, namely the parameter object built from the first
caller argument: two methods agreeing on that object give identical
outcomes (all other arguments are discarded); a first object argument
is spread with its signal field overwritten by the call's own signal; a
missing or undefined first argument becomes a fresh object holding only
the signal; and the written signal field is readable back. -/
theorem claim_C10_single_param_forwarding :
    (∀ (cfg : CallConfig) (m₁ m₂ : JSVal → MethodOutcome) (args : List JSVal),
      m₁ (buildParams args (.jsignal 0)) = m₂ (buildParams args (.jsignal 0)) →
      wrappedCall cfg m₁ args = wrappedCall cfg m₂ args)
    ∧ (∀ (fs : JSFields) (rest : List JSVal),
      buildParams (.jobj fs :: rest) (.jsignal 0)
        = .jobj (updateField fs "signal" (.jsignal 0)))
    ∧ (∀ rest : List JSVal,
      buildParams (.jundefined :: rest) (.jsignal 0)
        = .jobj (.cons "signal" (.jsignal 0) .nil))
    ∧ buildParams [] (.jsignal 0) = .jobj (.cons "signal" (.jsignal 0) .nil)
    ∧ (∀ fs : JSFields,
      (updateField fs "signal" (.jsignal 0)).lookup "signal" = some (.jsignal 0)) := by
  refine ⟨?_, ?_, ?_, by decide, fun fs => lookup_updateField_self fs _ _⟩
  · intro cfg m₁ m₂ args h
    simp only [wrappedCall, h]
  · intro fs rest
    simp [buildParams, JSVal.truthy, JSVal.spreadFields]
  · intro rest
    simp [buildParams, JSVal.truthy, JSVal.spreadFields, updateField,
      JSFields.lookup, JSFields.append]

/-- C10 witness: two distinct methods agreeing on the built parameter
object produce the same outcome, at a concrete call whose first
argument carries its own signal field (overwritten by the wrapper). -/
theorem claim_C10_single_param_forwarding_w :
    wrappedCall ⟨false, none⟩ (fun p => .resolve p)
      [.jobj (.cons "signal" (.jstr "mine") .nil), .jnum 9]
    = wrappedCall ⟨false, none⟩
      (fun p => if p = .jobj (.cons "signal" (.jsignal 0) .nil)
        then .resolve (.jobj (.cons "signal" (.jsignal 0) .nil)) else .reject .jnull)
      [.jobj (.cons "signal" (.jstr "mine") .nil), .jnum 9] :=
  claim_C10_single_param_forwarding.1 ⟨false, none⟩ _ _
    [.jobj (.cons "signal" (.jstr "mine") .nil), .jnum 9] (by decide)

/-- A successfully built try-block envelope always carries a null
error. -/
theorem tryBody_error_null (r : JSVal) (a : AbortFn) (env : Envelope)
    (h : tryBody r a = .ok env) : env.error = .jnull := by
  cases r <;> simp [tryBody] at h <;> exact h ▸ rfl

/-- Every envelope produced by the catch block carries null data and a
truthy error. -/
theorem catchBlock_result_shape (cfg : CallConfig) (a : AbortFn) (err : JSVal)
    (t : Bool) (env : Envelope)
    (h : (catchBlock cfg a err t).result = .ok env) :
    env.data = .jnull ∧ env.error.truthy = true := by
  unfold catchBlock at h
  revert h
  cases hab : isAbortErr err with
  | error u => intro h; simp at h
  | ok b =>
    intro h
    cases b
    · simp at h
      subst h
      exact ⟨rfl, jsOr_truthy_of_right _ _ (jsOr_truthy_of_right _ _ (by decide))⟩
    · simp at h
      subst h
      refine ⟨rfl, ?_⟩
      show (JSVal.jstr "Request aborted").truthy = true
      decide

/-- The catch block invokes the onRequestError callback at most once. -/
theorem catchBlock_calls_le_one (cfg : CallConfig) (a : AbortFn) (err : JSVal)
    (t : Bool) : (catchBlock cfg a err t).onRequestErrorCalls.length ≤ 1 := by
  unfold catchBlock
  cases hab : isAbortErr err with
  | error u => simp
  | ok b =>
    cases b
    · cases hset : cfg.onRequestErrorSet <;> simp [hset]
    · simp

/-- C3 counterexample: the claim predicts the envelope keeps a present
nested error message (here the empty string) and a present status
(here 0), but the code, using truthiness, falls through the empty
message to the outer one and maps status 0 to null. -/
theorem claim_C3_counterexample :
    (wrappedCall ⟨true, none⟩ (fun _ => .reject errC3) []).result
      = .ok ⟨.jnull, .jstr "outer", .jnull, ⟨0⟩⟩
    ∧ (wrappedCall ⟨true, none⟩ (fun _ => .reject errC3) []).result
      ≠ .ok ⟨.jnull, .jstr "", .jnum 0, ⟨0⟩⟩ := by decide

/-- C3 amended: for a non-abort rejection the envelope's error is the
nested error message when that value is truthy, else the outer message
when truthy, else the literal Request failed; and its status is the
status field when truthy, else null (so a present but zero or empty
field falls through). -/
theorem claim_C3_generic_failure (cfg : CallConfig)
    (method : JSVal → MethodOutcome) (args : List JSVal) (err : JSVal)
    (hrej : method (buildParams args (.jsignal 0)) = .reject err)
    (hna : isAbortErr err = .ok false) :
    (wrappedCall cfg method args).result
      = .ok ⟨.jnull,
          (if ((err.optGet "error").optGet "message").truthy
            then (err.optGet "error").optGet "message"
            else if (err.optGet "message").truthy then err.optGet "message"
            else .jstr "Request failed"),
          (if (err.optGet "status").truthy then err.optGet "status" else .jnull),
          ⟨0⟩⟩ := by
  simp [wrappedCall, hrej, catchBlock, hna, jsOr]

/-- C3 amended witness: a structured API error with message User not
found and status 404 is surfaced verbatim. -/
theorem claim_C3_generic_failure_w :
    (wrappedCall ⟨true, none⟩ (fun _ => .reject errC3w) []).result
    = .ok ⟨.jnull, .jstr "User not found", .jnum 404, ⟨0⟩⟩ :=
  claim_C3_generic_failure ⟨true, none⟩ (fun _ => .reject errC3w) [] errC3w rfl
    (by decide)

/-- C5 counterexample: an underlying method resolving with a null data
field (a real outcome for, say, a no-content endpoint) produces a final
envelope in which data and error are both null, against the claim that
on every success data is non-null and exactly one of the two is
non-null. -/
theorem claim_C5_counterexample :
    (wrappedCall ⟨false, none⟩
      (fun _ => .resolve (.jobj (.cons "data" .jnull
        (.cons "status" (.jnum 200) .nil)))) []).result
      = .ok ⟨.jnull, .jnull, .jnum 200, ⟨0⟩⟩ := by decide

/-- C5 amended: in every envelope actually returned, error is null (the
success shape, data copied from the response and null exactly when the
response's data is) or data is null with a truthy, hence non-null,
error (every failure shape). -/
theorem claim_C5_data_error_disjoint (cfg : CallConfig)
    (method : JSVal → MethodOutcome) (args : List JSVal) (env : Envelope)
    (h : (wrappedCall cfg method args).result = .ok env) :
    env.error = .jnull ∨ (env.data = .jnull ∧ env.error.truthy = true) := by
  simp only [wrappedCall] at h
  revert h
  cases hm : method (buildParams args (.jsignal 0)) with
  | resolve r =>
    dsimp only
    cases ht : tryBody r ⟨0⟩ with
    | ok env' =>
      intro h
      simp at h
      exact Or.inl (h ▸ tryBody_error_null r ⟨0⟩ env' ht)
    | error err =>
      intro h
      exact Or.inr (catchBlock_result_shape cfg ⟨0⟩ err _ env h)
  | reject err =>
    intro h
    exact Or.inr (catchBlock_result_shape cfg ⟨0⟩ err _ env h)

/-- C5 amended witness: a concrete success envelope satisfies the
disjunction through its null error. -/
theorem claim_C5_data_error_disjoint_w :
    (⟨.jnum 7, .jnull, .jnum 200, ⟨0⟩⟩ : Envelope).error = .jnull
    ∨ ((⟨.jnum 7, .jnull, .jnum 200, ⟨0⟩⟩ : Envelope).data = .jnull
        ∧ (⟨.jnum 7, .jnull, .jnum 200, ⟨0⟩⟩ : Envelope).error.truthy = true) :=
  claim_C5_data_error_disjoint ⟨false, none⟩
    (fun _ => .resolve (.jobj (.cons "data" (.jnum 7)
      (.cons "status" (.jnum 200) .nil)))) [] _ (by decide)

/-- C6: evaluated at the failing input of the repository's own manual
abort test (an abortable method called through a timeout-free client),
the pending value handed back by an intercepted call carries no abort
function of its own: the source returns the bare promise of the async
arrow, so only the resolved envelope carries abort. -/
theorem claim_C6_no_abort_on_pending :
    (interceptedCall ⟨false, none⟩
      (fun _ => .resolve (.jobj (.cons "data" (.jobj (.cons "id" (.jstr "123") .nil))
        (.cons "status" (.jnum 200) .nil))))
      [.jobj (.cons "id" (.jstr "123") .nil)]).abortOnPromise = none := by decide

/-- C7: evaluated at the failing input, an underlying rejection with a
numeric message field: the abort test calls includes on a number, the
resulting TypeError escapes the catch block, and the wrapped call
rejects instead of resolving to an envelope. -/
theorem claim_C7_rejection_escapes :
    (wrappedCall ⟨true, none⟩
      (fun _ => .reject (.jobj (.cons "message" (.jnum 42) .nil))) []).result
      = .error () := by decide

/-- C8 counterexample: on a non-abort failure whose message field is the
boolean true, the wrapper throws while classifying the error, so the
configured onRequestError callback is invoked zero times (the claim
demands exactly once) and no envelope is returned. -/
theorem claim_C8_counterexample :
    (wrappedCall ⟨true, none⟩
      (fun _ => .reject (.jobj (.cons "message" (.jbool true) .nil))) []).onRequestErrorCalls
      = []
    ∧ (wrappedCall ⟨true, none⟩
      (fun _ => .reject (.jobj (.cons "message" (.jbool true) .nil))) []).result
      = .error ()
    ∧ isAbortErr (.jobj (.cons "message" (.jbool true) .nil)) ≠ .ok true := by decide

/-- C8 amended: the configured onRequestError callback is invoked at
most once per call, with the raw rejection value; exactly once on a
non-abort failure whose message field is absent, nullish or a string
(on any other message the wrapper throws before reaching it); and zero
times on abort-signaling failures and on success with a non-nullish
response. -/
theorem claim_C8_callback_discipline (cfg : CallConfig)
    (method : JSVal → MethodOutcome) (args : List JSVal) :
    (wrappedCall cfg method args).onRequestErrorCalls.length ≤ 1
    ∧ (∀ err, method (buildParams args (.jsignal 0)) = .reject err →
        isAbortErr err = .ok false →
        (wrappedCall cfg method args).onRequestErrorCalls
          = if cfg.onRequestErrorSet then [err] else [])
    ∧ (∀ err, method (buildParams args (.jsignal 0)) = .reject err →
        isAbortErr err ≠ .ok false →
        (wrappedCall cfg method args).onRequestErrorCalls = [])
    ∧ (∀ r, method (buildParams args (.jsignal 0)) = .resolve r →
        r ≠ .jnull → r ≠ .jundefined →
        (wrappedCall cfg method args).onRequestErrorCalls = []) := by
  refine ⟨?_, ?_, ?_, ?_⟩
  · simp only [wrappedCall]
    cases hm : method (buildParams args (.jsignal 0)) with
    | resolve r =>
      dsimp only
      cases ht : tryBody r ⟨0⟩ with
      | ok env => simp
      | error err => exact catchBlock_calls_le_one cfg ⟨0⟩ err _
    | reject err => exact catchBlock_calls_le_one cfg ⟨0⟩ err _
  · intro err hrej hna
    simp [wrappedCall, hrej, catchBlock, hna]
  · intro err hrej hna
    simp only [wrappedCall, hrej]
    unfold catchBlock
    cases hab : isAbortErr err with
    | error u => simp
    | ok b =>
      cases b
      · exact absurd hab hna
      · simp
  · intro r hres h1 h2
    simp only [wrappedCall, hres]
    cases r <;>
      first
        | exact absurd rfl h1
        | exact absurd rfl h2
        | simp [tryBody]

/-- C8 amended witness: a structured 500 error with a configured
callback is reported exactly once with the raw rejection value. -/
theorem claim_C8_callback_discipline_w :
    (wrappedCall ⟨true, none⟩
      (fun _ => .reject (.jobj (.cons "error"
        (.jobj (.cons "message" (.jstr "Server error") .nil))
        (.cons "status" (.jnum 500) .nil)))) []).onRequestErrorCalls
    = [.jobj (.cons "error" (.jobj (.cons "message" (.jstr "Server error") .nil))
        (.cons "status" (.jnum 500) .nil))] :=
  (claim_C8_callback_discipline ⟨true, none⟩ _ []).2.1 _ rfl (by decide)

/-- Property reads never leave the proxy-free values. -/
theorem noProxy_wrapperGet (w : WrapperVal) (k : String)
    (h : noProxy w = true) : noProxy (wrapperGet w k) = true := by
  cases w with
  | rawVal v =>
    cases v with
    | nsObj fs =>
      cases hl : fs.lookup k <;> simp [wrapperGet, hl, noProxy]
    | vNull => simp [wrapperGet, noProxy]
    | vUndefined => simp [wrapperGet, noProxy]
    | vBool b => simp [wrapperGet, noProxy]
    | vNum n => simp [wrapperGet, noProxy]
    | vStr s => simp [wrapperGet, noProxy]
    | fnVal id => simp [wrapperGet, noProxy]
  | throwTypeError => simp [wrapperGet, noProxy]
  | outerProxy fs => simp [noProxy] at h
  | nestedProxy fs => simp [noProxy] at h
  | wrappedFn id => simp [wrapperGet, noProxy]

/-- Chains of property reads never leave the proxy-free values. -/
theorem noProxy_accessPath : ∀ (ks : List String) (w : WrapperVal),
    noProxy w = true → noProxy (accessPath w ks) = true
  | [], _, h => h
  | k :: ks, w, h => noProxy_accessPath ks _ (noProxy_wrapperGet w k h)

/-- Three property reads from the outer Proxy always land on a
proxy-free value: interception can only happen at the second read. -/
theorem outer_three_noProxy (fs : ClientFields) (k j l : String) :
    noProxy (wrapperGet (wrapperGet (wrapperGet (.outerProxy fs) k) j) l) = true := by
  cases h1 : fs.lookup k with
  | none =>
    have e1 : wrapperGet (.outerProxy fs) k = .rawVal .vUndefined := by
      simp [wrapperGet, h1]
    rw [e1]
    exact noProxy_wrapperGet _ _ (noProxy_wrapperGet _ _ rfl)
  | some v =>
    cases v with
    | nsObj gs =>
      have e1 : wrapperGet (.outerProxy fs) k = .nestedProxy gs := by
        simp [wrapperGet, h1]
      rw [e1]
      cases h2 : gs.lookup j with
      | none =>
        have e2 : wrapperGet (.nestedProxy gs) j = .rawVal .vUndefined := by
          simp [wrapperGet, h2]
        rw [e2]
        exact noProxy_wrapperGet _ _ rfl
      | some u =>
        cases u with
        | fnVal id =>
          have e2 : wrapperGet (.nestedProxy gs) j = .wrappedFn id := by
            simp [wrapperGet, h2]
          rw [e2]
          simp [wrapperGet, noProxy]
        | vNull =>
          have e2 : wrapperGet (.nestedProxy gs) j = .rawVal .vNull := by
            simp [wrapperGet, h2]
          rw [e2]
          exact noProxy_wrapperGet _ _ rfl
        | vUndefined =>
          have e2 : wrapperGet (.nestedProxy gs) j = .rawVal .vUndefined := by
            simp [wrapperGet, h2]
          rw [e2]
          exact noProxy_wrapperGet _ _ rfl
        | vBool b =>
          have e2 : wrapperGet (.nestedProxy gs) j = .rawVal (.vBool b) := by
            simp [wrapperGet, h2]
          rw [e2]
          exact noProxy_wrapperGet _ _ rfl
        | vNum n =>
          have e2 : wrapperGet (.nestedProxy gs) j = .rawVal (.vNum n) := by
            simp [wrapperGet, h2]
          rw [e2]
          exact noProxy_wrapperGet _ _ rfl
        | vStr s =>
          have e2 : wrapperGet (.nestedProxy gs) j = .rawVal (.vStr s) := by
            simp [wrapperGet, h2]
          rw [e2]
          exact noProxy_wrapperGet _ _ rfl
        | nsObj hs =>
          have e2 : wrapperGet (.nestedProxy gs) j = .rawVal (.nsObj hs) := by
            simp [wrapperGet, h2]
          rw [e2]
          exact noProxy_wrapperGet _ _ rfl
    | vNull =>
      have e1 : wrapperGet (.outerProxy fs) k = .rawVal .vNull := by
        simp [wrapperGet, h1]
      rw [e1]
      exact noProxy_wrapperGet _ _ (noProxy_wrapperGet _ _ rfl)
    | vUndefined =>
      have e1 : wrapperGet (.outerProxy fs) k = .rawVal .vUndefined := by
        simp [wrapperGet, h1]
      rw [e1]
      exact noProxy_wrapperGet _ _ (noProxy_wrapperGet _ _ rfl)
    | vBool b =>
      have e1 : wrapperGet (.outerProxy fs) k = .rawVal (.vBool b) := by
        simp [wrapperGet, h1]
      rw [e1]
      exact noProxy_wrapperGet _ _ (noProxy_wrapperGet _ _ rfl)
    | vNum n =>
      have e1 : wrapperGet (.outerProxy fs) k = .rawVal (.vNum n) := by
        simp [wrapperGet, h1]
      rw [e1]
      exact noProxy_wrapperGet _ _ (noProxy_wrapperGet _ _ rfl)
    | vStr s =>
      have e1 : wrapperGet (.outerProxy fs) k = .rawVal (.vStr s) := by
        simp [wrapperGet, h1]
      rw [e1]
      exact noProxy_wrapperGet _ _ (noProxy_wrapperGet _ _ rfl)
    | fnVal id =>
      have e1 : wrapperGet (.outerProxy fs) k = .rawVal (.fnVal id) := by
        simp [wrapperGet, h1]
      rw [e1]
      exact noProxy_wrapperGet _ _ (noProxy_wrapperGet _ _ rfl)

/-- C4 counterexample: a function member sitting directly on the client
(depth 0) is read back as the raw function, not as the normalizing
wrapper, while the same function one level down (depth 1) is
intercepted, so interception is not uniform across depths. -/
theorem claim_C4_counterexample :
    accessPath (sdkClientOf (.cons "f" (.fnVal 7) .nil)) ["f"]
      = .rawVal (.fnVal 7)
    ∧ accessPath (sdkClientOf
        (.cons "a" (.nsObj (.cons "f" (.fnVal 7) .nil)) .nil)) ["a", "f"]
      = .wrappedFn 7
    ∧ accessPath (sdkClientOf (.cons "f" (.fnVal 7) .nil)) ["f"]
      ≠ .wrappedFn 7 := by decide

/-- C4 amended: interception happens at depth exactly 1 and nowhere
else: a function member directly on the client is returned raw; a
function member of an object member is replaced by the normalizing
wrapper; and no chain of three or more reads ever reaches the wrapper,
since objects read through the nested Proxy come back raw. -/
theorem claim_C4_interception_depth_one :
    (∀ (fs : ClientFields) (k : String) (id : Nat),
      fs.lookup k = some (.fnVal id) →
      accessPath (sdkClientOf fs) [k] = .rawVal (.fnVal id))
    ∧ (∀ (fs gs : ClientFields) (k j : String) (id : Nat),
      fs.lookup k = some (.nsObj gs) → gs.lookup j = some (.fnVal id) →
      accessPath (sdkClientOf fs) [k, j] = .wrappedFn id)
    ∧ (∀ (fs : ClientFields) (k j l : String) (ks : List String) (id : Nat),
      accessPath (sdkClientOf fs) (k :: j :: l :: ks) ≠ .wrappedFn id) := by
  refine ⟨?_, ?_, ?_⟩
  · intro fs k id h
    simp [accessPath, sdkClientOf, wrapperGet, h]
  · intro fs gs k j id h1 h2
    simp [accessPath, sdkClientOf, wrapperGet, h1, h2]
  · intro fs k j l ks id hcontra
    have hnp : noProxy (accessPath (sdkClientOf fs) (k :: j :: l :: ks)) = true := by
      show noProxy (accessPath
        (wrapperGet (wrapperGet (wrapperGet (.outerProxy fs) k) j) l) ks) = true
      exact noProxy_accessPath ks _ (outer_three_noProxy fs k j l)
    rw [hcontra] at hnp
    simp [noProxy] at hnp

/-- C4 amended witness: a nested endpoint two reads deep is intercepted;
the same function id read at depth 0 stays raw; a three-deep chain is
never the wrapper. -/
theorem claim_C4_interception_depth_one_w :
    accessPath (sdkClientOf (.cons "users"
      (.nsObj (.cons "getUser" (.fnVal 3) .nil)) .nil)) ["users", "getUser"]
      = .wrappedFn 3 :=
  claim_C4_interception_depth_one.2.1
    (.cons "users" (.nsObj (.cons "getUser" (.fnVal 3) .nil)) .nil)
    (.cons "getUser" (.fnVal 3) .nil) "users" "getUser" 3 (by decide) (by decide)

end SwaggerSdk
